import Mathlib

/-!
Verification of the KLVR support tool: calibration analysis scripts
(`delta_analysis.py`, `detailed_delta_analysis.py`, `dual_range_analysis.py`,
`proper_dual_range_analysis.py`) and the live monitor
(`tools/battery-monitor.py`).

The Python sources are shallowly embedded: lists of signed integer
millivolt deltas become `List Int`, Python floats used only as exact
decimal factors (`0.99 * n`, `p/100 * n`) are modelled with exact
rational arithmetic, fallible statistics calls become `Except`, and the
monitor's per-cycle console/log output becomes a list of structured
`LogLine` values (console print and log write are always paired in the
source, so a single line list models both sinks).
-/

set_option linter.unusedVariables false

namespace Klvr

/-! ## Python primitives shared by all scripts -/

/-- Contiguous-sublist test on character lists. -/
def listContains (needle : List Char) : List Char → Bool
  | [] => needle.isEmpty
  | c :: rest => needle.isPrefixOf (c :: rest) || listContains needle rest

/-- Python `needle in hay` on strings: substring containment. -/
def strContains (hay needle : String) : Bool :=
  listContains needle.toList hay.toList

/-- Python `min(l)` on a list of ints.  `min([])` raises in Python; every
call site in the sources guards with a non-emptiness check, so the `[]`
value here is junk that is never reached under those guards. -/
def pyMin (l : List Int) : Int :=
  match l with
  | [] => 0
  | x :: xs => xs.foldl min x

/-- Python `max(l)` on a list of ints (same guard convention as `pyMin`). -/
def pyMax (l : List Int) : Int :=
  match l with
  | [] => 0
  | x :: xs => xs.foldl max x

/-- Python `sorted(l)`: ascending stable sort (on `Int` the result list is
unique among sorted permutations, so any sort models it). -/
def pySorted (l : List Int) : List Int :=
  l.insertionSort (· ≤ ·)

/-- The floor index `int(q * n)` for a fixed decimal fraction `q`
written in per-mille (`pm / 1000 = q` exactly): every such literal in
the scripts — `int(0.99 * n)`, `int(0.999 * n)`, `int(0.025 * n)`, … —
is a terminating decimal, so `⌊q·n⌋ = pm·n / 1000` holds exactly. -/
def pmIdx (pm n : ℕ) : ℕ :=
  pm * n / 1000

/-- Unclamped percentile lookup `sorted_list[int(q * n)]` as in
`delta_analysis.py` (lines 165-168), with `q` in per-mille. -/
def pctAt (s : List Int) (pm : ℕ) : Int :=
  s.getD (pmIdx pm s.length) 0

/-- Python `int(p/100 * n)` for a general percentile level `0 ≤ p`, the
index of the spec's floor-index estimator.  `int` truncates toward
zero, which on nonnegative values is the floor. -/
def qIdx (p : ℚ) (n : ℕ) : ℕ :=
  (⌊p / 100 * (n : ℚ)⌋).toNat

/-- The clamped index `idx = int(p/100 * n); if idx >= n: idx = n - 1`
used by `detailed_delta_analysis.py` (lines 122-125) and
`proper_dual_range_analysis.py` (lines 121-124). -/
def clampedIdx (p : ℚ) (n : ℕ) : ℕ :=
  let idx := qIdx p n
  if n ≤ idx then n - 1 else idx

/-- The clamped floor-index percentile estimator over a raw sample list:
sort, then read the clamped index. -/
def pyPercentile (l : List Int) (p : ℚ) : Int :=
  (pySorted l).getD (clampedIdx p l.length) 0

/-- Python `statistics.mean` over integer samples (exact rational). -/
def pyMean (l : List Int) : ℚ :=
  (l.sum : ℚ) / l.length

/-- Radicand of Python `statistics.stdev`: the sample variance
`Σ (x - mean)² / (n - 1)`.  `stdev` itself returns the square root, an
irrational number; no claim depends on the numeric value of a standard
deviation, only on whether the call raises, so the model carries the
exact radicand. -/
def pyVariance (l : List Int) : ℚ :=
  ((l.map (fun x => ((x : ℚ) - pyMean l) ^ 2)).sum) / ((l.length : ℚ) - 1)

/-- Python `statistics.stdev(l)`: raises `StatisticsError` when fewer
than two data points are supplied, otherwise succeeds. -/
def stdevChecked (l : List Int) : Except String ℚ :=
  if l.length < 2 then .error "stdev requires at least two data points"
  else .ok (pyVariance l)

/-! ## Sample Extractor (`delta_analysis.py` / `proper_dual_range_analysis.py`)

A historical log file is a filename plus the list of measurement lines
inside it that match the fixed regex
`(✅|🚨)\s+SLOT\s+\d+:\s+(KLVR-AA|KLVR-AAA)\s+\|\s+AAA_ON=\d+mV\s+\|\s+AAA_OFF=\d+mV\s+\|\s+Δ=\s*(-?\d+)mV`.
The regex admits exactly two detected-type tokens and a signed delta;
the status marker and slot number are matched but unused downstream, so
a matched line is modelled by its detected type and delta. -/

/-- The detected-type token of a matched measurement line. -/
inductive Detected
  | KLVR_AA
  | KLVR_AAA
deriving DecidableEq

/-- One measurement line matching the extraction pattern. -/
structure Measurement where
  detected : Detected
  delta : Int
deriving DecidableEq

/-- Ground-truth class hint taken from a filename. -/
inductive TestType
  | aa
  | aaa
deriving DecidableEq

/-- `delta_analysis.py` lines 35-41: determine the test type from the
filename.  Checks `'aa_' in basename` first, `'aaa_' in basename`
second, otherwise skips the file. -/
def deltaTestType (filename : String) : Option TestType :=
  if strContains filename "aa_" then some .aa
  else if strContains filename "aaa_" then some .aaa
  else none

/-- `proper_dual_range_analysis.py` lines 33-38: the same decision with
the class-B hint excluded from the class-A test
(`'aa_' in filename and 'aaa_' not in filename`). -/
def properTestType (filename : String) : Option TestType :=
  if strContains filename "aa_" && !strContains filename "aaa_" then some .aa
  else if strContains filename "aaa_" then some .aaa
  else none

/-- The four labeled sample sets produced by one extraction batch. -/
structure SampleSets where
  aa_correct : List Int
  aa_misdetected : List Int
  aaa_correct : List Int
  aaa_failed : List Int
deriving DecidableEq

/-- Classification of the matched lines of one file, given its test
type (`delta_analysis.py` lines 46-63; the identical per-line logic
appears in `proper_dual_range_analysis.py` lines 52-82). -/
def classifyFile (tt : TestType) (ms : List Measurement) (acc : SampleSets) : SampleSets :=
  ms.foldl (fun acc m =>
    match tt, m.detected with
    | .aa, .KLVR_AA => { acc with aa_correct := acc.aa_correct ++ [m.delta] }
    | .aa, .KLVR_AAA => { acc with aa_misdetected := acc.aa_misdetected ++ [m.delta] }
    | .aaa, .KLVR_AAA => { acc with aaa_correct := acc.aaa_correct ++ [m.delta] }
    | .aaa, .KLVR_AA => { acc with aaa_failed := acc.aaa_failed ++ [m.delta] }) acc

/-- `extract_delta_measurements` (`delta_analysis.py` lines 13-68)
restricted to its pure core: files whose filename yields no test type
contribute nothing; the rest are classified per line. -/
def extract_delta_measurements (files : List (String × List Measurement)) : SampleSets :=
  files.foldl (fun acc file =>
    match deltaTestType file.1 with
    | none => acc
    | some tt => classifyFile tt file.2 acc) ⟨[], [], [], []⟩

/-- `extract_measurements_by_battery_type`
(`proper_dual_range_analysis.py` lines 11-87): identical per-line logic
but with the corrected filename classification.  (The source first
partitions the file list and then processes class-A files before
class-B files; only the per-class sample lists are observable and each
list receives exactly the deltas of its class's files in file order, so
the single fold is the same function.) -/
def extract_measurements_by_battery_type (files : List (String × List Measurement)) : SampleSets :=
  let aaFiles := files.filter (fun f => properTestType f.1 = some .aa)
  let aaaFiles := files.filter (fun f => properTestType f.1 = some .aaa)
  let acc := aaFiles.foldl (fun acc f => classifyFile .aa f.2 acc) ⟨[], [], [], []⟩
  aaaFiles.foldl (fun acc f => classifyFile .aaa f.2 acc) acc

/-! ## Dual-Range Calibrator, one-sided mode (`delta_analysis.py`) -/

/-- Confidence grade of a calibration recommendation. -/
inductive Confidence
  | HIGH
  | MEDIUM
  | LOW
deriving DecidableEq

/-- The separation analysis of `recommend_optimal_threshold`
(`delta_analysis.py` lines 177-191), produced only when misdetection
samples exist. -/
structure SeparationInfo where
  misdetection_min : Int
  clean : Bool
  optimal : Option Int
deriving DecidableEq

/-- Everything `recommend_optimal_threshold` computes from non-empty
class-A data: the percentile ladder (lines 165-168), the separation
analysis (lines 177-191) and the final recommendation (lines 240-254). -/
structure ThresholdReport where
  p90 : Int
  p95 : Int
  p99 : Int
  p999 : Int
  separation : Option SeparationInfo
  recommended : Int
  confidence : Confidence
deriving DecidableEq

/-- Core of `recommend_optimal_threshold` for non-empty `aa_correct`. -/
def thresholdReport (aa_correct aa_misdetected : List Int) : ThresholdReport :=
  let aa_abs_deltas := aa_correct.map (fun d => |d|)
  let s := pySorted aa_abs_deltas
  let p90 := pctAt s 900
  let p95 := pctAt s 950
  let p99 := pctAt s 990
  let p999 := pctAt s 999
  let separation :=
    if aa_misdetected = [] then none
    else
      let m := pyMin (aa_misdetected.map (fun d => |d|))
      some { misdetection_min := m
             clean := decide (p99 < m)
             optimal := if p99 < m then some (Int.fdiv (p99 + m) 2) else none }
  let recommended :=
    if aa_misdetected = [] then p99
    else
      let m := pyMin (aa_misdetected.map (fun d => |d|))
      if m > p99 then p99
      else if m > p95 then p95
      else p90
  let confidence :=
    if aa_misdetected = [] then Confidence.MEDIUM
    else
      let m := pyMin (aa_misdetected.map (fun d => |d|))
      if m > p99 then Confidence.HIGH
      else if m > p95 then Confidence.MEDIUM
      else Confidence.LOW
  { p90 := p90, p95 := p95, p99 := p99, p999 := p999
    separation := separation, recommended := recommended, confidence := confidence }

/-- `recommend_optimal_threshold` (`delta_analysis.py` lines 152-266):
returns early (`none`) when no class-A data exists (lines 158-160);
the `aaa_correct`/`aaa_failed` arguments are accepted but unused by the
source. -/
def recommend_optimal_threshold (aa_correct aa_misdetected aaa_correct aaa_failed : List Int) :
    Option ThresholdReport :=
  if aa_correct = [] then none
  else some (thresholdReport aa_correct aa_misdetected)

/-! Spec-side quantities used to state the confidence-grading claim. -/

/-- The `c`-th percentile absolute boundary of a class (`c` in
per-mille): the floor-index percentile of the absolute deltas. -/
def absBoundary (samples : List Int) (c : ℕ) : Int :=
  pctAt (pySorted (samples.map (fun d => |d|))) c

/-- Minimum misdetection magnitude of a class. -/
def minMisMagnitude (mis : List Int) : Int :=
  pyMin (mis.map (fun d => |d|))

/-! ## Dual-Range Calibrator, two-sided mode
(`proper_dual_range_analysis.py` and `dual_range_analysis.py`) -/

/-- How the class-B (AAA) range of `recommend_optimal_dual_ranges` was
obtained.  In the misdetection-proxy branch the source computes
`int(mean ± stdev)`; `stdev` is the square root of the recorded
radicand and is irrational in general, so the model records the exact
`(center, variance)` pair the bounds are derived from — no claim
depends on the rounded bounds of that branch. -/
inductive AaaRangeSource
  | fromData (lo hi : Int)
  | fromMisdetections (center : ℚ) (varRadicand : ℚ)
  | theoretical (lo hi : Int)
deriving DecidableEq

/-- Returned recommendation of `recommend_optimal_dual_ranges`. -/
structure DualRangeRecommendation where
  aa_min : Int
  aa_max : Int
  aaa : AaaRangeSource
deriving DecidableEq

/-- `recommend_optimal_dual_ranges` (`proper_dual_range_analysis.py`
lines 213-310).  `.ok none` models the early return when no class-A
data exists (lines 219-221).  The `statistics.stdev` calls at lines
226, 245 and 279 carry NO single-sample guard (unlike
`analyze_battery_type_ranges` lines 107/154 and `analyze_dual_ranges`
lines 86/122, which use `stdev(l) if len(l) > 1 else 0`), so a
single-sample list raises `StatisticsError`, modelled as
`Except.error`.  The 90% and 99% coverage bounds (lines 229-234,
247-252) and the gap analysis (lines 259-266) are computed for display
only; the recommended values are the 95% bounds (lines 269-272,
291-292). -/
def recommend_optimal_dual_ranges (aa_correct aa_misdetected aaa_correct aaa_misdetected : List Int) :
    Except String (Option DualRangeRecommendation) :=
  if aa_correct = [] then .ok none
  else
    let aa_sorted := pySorted aa_correct
    let aa_mean := pyMean aa_correct
    match stdevChecked aa_correct with
    | .error e => .error e
    | .ok _aa_std =>
      let n := aa_sorted.length
      let aa_95_lower := aa_sorted.getD (pmIdx 25 n) 0
      let aa_95_upper := aa_sorted.getD (pmIdx 975 n) 0
      if aaa_correct = [] then
        if aa_misdetected = [] then
          .ok (some { aa_min := aa_95_lower, aa_max := aa_95_upper
                      aaa := .theoretical 250 380 })
        else
          match stdevChecked aa_misdetected with
          | .error e => .error e
          | .ok v =>
            .ok (some { aa_min := aa_95_lower, aa_max := aa_95_upper
                        aaa := .fromMisdetections (pyMean aa_misdetected) v })
      else
        match stdevChecked aaa_correct with
        | .error e => .error e
        | .ok _aaa_std =>
          let aaa_sorted := pySorted aaa_correct
          let m := aaa_sorted.length
          let aaa_95_lower := aaa_sorted.getD (pmIdx 25 m) 0
          let aaa_95_upper := aaa_sorted.getD (pmIdx 975 m) 0
          .ok (some { aa_min := aa_95_lower, aa_max := aa_95_upper
                      aaa := .fromData aaa_95_lower aaa_95_upper })

/-- The dictionary returned by `recommend_dual_ranges`
(`dual_range_analysis.py` lines 276-281). -/
structure DualRanges where
  aa_min : Int
  aa_max : Int
  aaa_min : Int
  aaa_max : Int
deriving DecidableEq

/-- `recommend_dual_ranges` (`dual_range_analysis.py` lines 170-281):
early `none` without class-A data (lines 176-178); balanced (90%
coverage) percentile ranges, the class-B side falling back to the
theoretical interval when no class-B data exists (lines 215-222,
259-264); the returned firmware recommendation clamps the class-A range
to [-100, 100] and the class-B range to [200, 500] (lines 256-264).
The conservative 98% ranges (lines 192, 210) are printed only.  The two
misdetection arguments are accepted but never used for the returned
values. -/
def recommend_dual_ranges (aa_deltas aaa_deltas aa_misdetections aaa_misdetections : List Int) :
    Option DualRanges :=
  if aa_deltas = [] then none
  else
    let aa_sorted := pySorted aa_deltas
    let n := aa_sorted.length
    let aa_p5 := aa_sorted.getD (pmIdx 50 n) 0
    let aa_p95 := aa_sorted.getD (pmIdx 950 n) 0
    let aa_balanced := (aa_p5, aa_p95)
    let aaa_balanced :=
      if aaa_deltas = [] then ((250 : Int), (350 : Int))
      else
        let aaa_sorted := pySorted aaa_deltas
        let m := aaa_sorted.length
        (aaa_sorted.getD (pmIdx 50 m) 0, aaa_sorted.getD (pmIdx 950 m) 0)
    let recommended_aa_min := max aa_balanced.1 (-100)
    let recommended_aa_max := min aa_balanced.2 100
    let recommended_aaa_min := if aaa_deltas = [] then (250 : Int) else max aaa_balanced.1 200
    let recommended_aaa_max := if aaa_deltas = [] then (380 : Int) else min aaa_balanced.2 500
    some { aa_min := recommended_aa_min, aa_max := recommended_aa_max
           aaa_min := recommended_aaa_min, aaa_max := recommended_aaa_max }

/-! ## Online Classifier/Monitor (`tools/battery-monitor.py`)

A status snapshot is the parsed JSON of `/api/v2/charger/status`: an
optional `batteries` array of slots, each with a `slotState` string, a
`batteryDetected` label and an optional `debug` object whose integer
fields are each optional (the source reads them with
`debug.get(key, 0)`).  Console `print` and `log_file.write` are always
called in pairs on the same text in the polling loop, so one list of
structured `LogLine`s models both sinks; timestamps and numeric
formatting are presentation only and are not part of the line model. -/

/-- The optional `debug` object of one slot. -/
structure DebugInfo where
  voltageAAA_mv : Option Int
  voltageAA_mv : Option Int
  voltageDelta_mv : Option Int
  lastDetection_ms : Option Int
deriving DecidableEq

/-- One element of the `batteries` array. -/
structure BatterySlot where
  slotState : String
  batteryDetected : String
  debug : Option DebugInfo
deriving DecidableEq

/-- A `debug_entry` dict built at `battery-monitor.py` lines 82-89. -/
structure DebugEntry where
  slot : ℕ
  detected_type : String
  voltageAAA_mv : Int
  voltageAA_mv : Int
  voltageDelta_mv : Int
  lastDetection_ms : Int
deriving DecidableEq

/-- Build the `debug_entry` for slot `i` (`.get(key, 0)` defaults). -/
def mkDebugEntry (i : ℕ) (b : BatterySlot) (d : DebugInfo) : DebugEntry :=
  { slot := i, detected_type := b.batteryDetected
    voltageAAA_mv := d.voltageAAA_mv.getD 0
    voltageAA_mv := d.voltageAA_mv.getD 0
    voltageDelta_mv := d.voltageDelta_mv.getD 0
    lastDetection_ms := d.lastDetection_ms.getD 0 }

/-- The three lists accumulated by the slot loop of `analyze_detection`. -/
structure DetectAccum where
  all_debug_info : List DebugEntry
  misdetections : List DebugEntry
  correct_detections : List DebugEntry
deriving DecidableEq

/-- The `for i, battery in enumerate(data['batteries'])` loop of
`analyze_detection` (`battery-monitor.py` lines 76-105), with the
running enumeration index threaded explicitly.  Only occupied slots
that carry a `debug` object produce entries; the per-slot branching on
`test_type` follows lines 92-105 verbatim. -/
def detectLoop (test_type : String) (i : ℕ) : List BatterySlot → DetectAccum
  | [] => ⟨[], [], []⟩
  | b :: rest =>
    let acc := detectLoop test_type (i + 1) rest
    if b.slotState != "empty" then
      match b.debug with
      | some d =>
        let e := mkDebugEntry i b d
        if test_type == "aa" then
          if strContains b.batteryDetected "AAA" then
            ⟨e :: acc.all_debug_info, e :: acc.misdetections, acc.correct_detections⟩
          else if strContains b.batteryDetected "AA" && !strContains b.batteryDetected "AAA" then
            ⟨e :: acc.all_debug_info, acc.misdetections, e :: acc.correct_detections⟩
          else
            ⟨e :: acc.all_debug_info, acc.misdetections, acc.correct_detections⟩
        else if test_type == "aaa" then
          if !strContains b.batteryDetected "AAA" then
            ⟨e :: acc.all_debug_info, e :: acc.misdetections, acc.correct_detections⟩
          else
            ⟨e :: acc.all_debug_info, acc.misdetections, e :: acc.correct_detections⟩
        else
          ⟨e :: acc.all_debug_info, acc.misdetections, acc.correct_detections⟩
      | none => acc
    else acc

/-- The dict returned by `analyze_detection` (lines 107-115). -/
structure Analysis where
  total : ℕ
  aa_count : ℕ
  aaa_count : ℕ
  all_debug_info : List DebugEntry
  misdetections : List DebugEntry
  correct_detections : List DebugEntry
  test_type : String
deriving DecidableEq

/-- Core of `analyze_detection` on a present `batteries` array
(lines 67-115): occupancy total, per-type tallies over occupied slots,
and the three entry lists from the slot loop. -/
def analyzeBats (bats : List BatterySlot) (test_type : String) : Analysis :=
  let active := bats.filter (fun b => b.slotState != "empty")
  let acc := detectLoop test_type 0 bats
  { total := active.length
    aa_count := (active.filter (fun b =>
      strContains b.batteryDetected "AA" && !strContains b.batteryDetected "AAA")).length
    aaa_count := (active.filter (fun b => strContains b.batteryDetected "AAA")).length
    all_debug_info := acc.all_debug_info
    misdetections := acc.misdetections
    correct_detections := acc.correct_detections
    test_type := test_type }

/-- Parsed status JSON: the `batteries` key may be absent. -/
structure ChargerData where
  batteries : Option (List BatterySlot)
deriving DecidableEq

/-- `get_charger_status` (lines 53-60): any exception from the fetch or
the JSON parse (modelled as the `Except.error` case of the attempt)
is swallowed and `None` is returned. -/
def get_charger_status (response : Except String ChargerData) : Option ChargerData :=
  match response with
  | .ok d => some d
  | .error _ => none

/-- `analyze_detection` (lines 62-115): `None` for missing data or a
missing `batteries` key. -/
def analyze_detection (data : Option ChargerData) (test_type : String) : Option Analysis :=
  match data with
  | none => none
  | some d =>
    match d.batteries with
    | none => none
    | some bats => some (analyzeBats bats test_type)

/-- The shapes of the per-cycle summary line (`format_detection_line`,
lines 117-139); the `alert` flag models the `🚨`-vs-`✅` status chosen
by `misdetection_count > 0`. -/
inductive SummaryLine
  | connectionFailed (reading : ℕ)
  | aaTest (reading total correct mis : ℕ) (alert : Bool)
  | aaaTest (reading total correct mis : ℕ) (alert : Bool)
  | bothTally (reading total aa_count aaa_count : ℕ)
deriving DecidableEq

/-- `format_detection_line` (lines 117-139). -/
def format_detection_line (reading_num : ℕ) (analysis : Option Analysis) : SummaryLine :=
  match analysis with
  | none => .connectionFailed reading_num
  | some a =>
    if a.test_type == "aa" then
      .aaTest reading_num a.total a.correct_detections.length a.misdetections.length
        (decide (0 < a.misdetections.length))
    else if a.test_type == "aaa" then
      .aaaTest reading_num a.total a.correct_detections.length a.misdetections.length
        (decide (0 < a.misdetections.length))
    else
      .bothTally reading_num a.total a.aa_count a.aaa_count

/-- Indicator chosen for a voltage detail line (lines 229-234). -/
def voltageIndicator (test_type : String) (e : DebugEntry) : String :=
  if test_type == "aa" then
    if strContains e.detected_type "AAA" then "🚨" else "✅"
  else if test_type == "aaa" then
    if strContains e.detected_type "AAA" then "✅" else "🚨"
  else "📊"

/-- One line written (to console and log alike) during a cycle. -/
inductive LogLine
  | summary (s : SummaryLine)
  | voltageDetail (indicator : String) (e : DebugEntry)
  | alert (test_type : String) (count : ℕ)
  | misdetectionDetail (e : DebugEntry)
  | countChange (oldTotal newTotal : ℕ)
deriving DecidableEq

/-- One iteration of the polling loop of `main`
(`battery-monitor.py` lines 216-268): fetch, analyze, always write the
summary line (lines 221-223); write the voltage detail block when debug
entries exist and the reading is periodic or a misdetection occurred
(lines 226-238); write the alert and one detail line per misdetection
when any occurred (lines 241-256); write the count-change line when the
previous cycle is comparable (lines 259-263).  Returns the written
lines, the analysis stored as `last_analysis`, and the advanced
reading counter. -/
def monitorCycle (reading_num : ℕ) (test_type : String)
    (response : Except String ChargerData) (last_analysis : Option Analysis) :
    List LogLine × Option Analysis × ℕ :=
  let data := get_charger_status response
  let analysis := analyze_detection data test_type
  let summaryBlock := [LogLine.summary (format_detection_line reading_num analysis)]
  let voltageBlock :=
    match analysis with
    | none => []
    | some a =>
      if !a.all_debug_info.isEmpty &&
          ((reading_num % 10 == 1) || decide (0 < a.misdetections.length)) then
        a.all_debug_info.map (fun e => LogLine.voltageDetail (voltageIndicator test_type e) e)
      else []
  let alertBlock :=
    match analysis with
    | none => []
    | some a =>
      if 0 < a.misdetections.length then
        LogLine.alert test_type a.misdetections.length ::
          a.misdetections.map LogLine.misdetectionDetail
      else []
  let changeBlock :=
    match last_analysis, analysis with
    | some la, some a =>
      if a.total != la.total then [LogLine.countChange la.total a.total] else []
    | _, _ => []
  (summaryBlock ++ voltageBlock ++ alertBlock ++ changeBlock, analysis, reading_num + 1)

/-- Lines only a misdetection can produce: the high-severity alert and
the per-slot misdetection detail. -/
def isMisdetectionLine : LogLine → Bool
  | .alert _ _ => true
  | .misdetectionDetail _ => true
  | _ => false

/-- The per-slot condition under which the loop classifies an entry as
a misdetection (`battery-monitor.py` lines 93-103). -/
def misPredB (test_type : String) (b : BatterySlot) : Bool :=
  if test_type == "aa" then strContains b.batteryDetected "AAA"
  else if test_type == "aaa" then !strContains b.batteryDetected "AAA"
  else false

/-- A detected label resolves to class A: the monitor's test
`'AA' in label and 'AAA' not in label`. -/
def resolvesClassA (b : BatterySlot) : Bool :=
  strContains b.batteryDetected "AA" && !strContains b.batteryDetected "AAA"

/-- A detected label resolves to class B: the monitor's test
`'AAA' in label`. -/
def resolvesClassB (b : BatterySlot) : Bool :=
  strContains b.batteryDetected "AAA"

/-- Concrete occupied class-A slot without a debug object. -/
def slotAnoDebug : BatterySlot :=
  { slotState := "full", batteryDetected := "KLVR-AA", debug := none }

/-- Concrete occupied class-B slot without a debug object. -/
def slotBnoDebug : BatterySlot :=
  { slotState := "full", batteryDetected := "KLVR-AAA", debug := none }

/-- Concrete debug object with a class-B-sized delta. -/
def debug300 : DebugInfo :=
  { voltageAAA_mv := some 1500, voltageAA_mv := some 1200
    voltageDelta_mv := some 300, lastDetection_ms := some 42 }

/-- Concrete occupied class-A slot with a debug object. -/
def slotA : BatterySlot :=
  { slotState := "full", batteryDetected := "KLVR-AA", debug := some debug300 }

/-- Concrete occupied class-B slot with a debug object. -/
def slotB : BatterySlot :=
  { slotState := "full", batteryDetected := "KLVR-AAA", debug := some debug300 }

end Klvr

namespace Klvr

/-! ## Claim theorems for the Sample Extractor and one-sided calibrator -/

/-- **C1** (code bug evidence): a file whose name carries the class-B
hint `aaa_` also contains the substring `aa_`, so
`extract_delta_measurements` classifies it as a class-A test file and
routes its measurement lines into the class-A sample sets: here a line
detected as `KLVR-AAA` with delta 300 lands in `aa_misdetected`
(an A set) and the class-B sets stay empty.  The corrected routine
`extract_measurements_by_battery_type` sends the same corpus to
`aaa_correct`, the correct-B set. -/
theorem aaa_file_routed_to_class_A_sets :
    extract_delta_measurements
        [("detection_monitor_aaa_20250101_120000.log", [⟨.KLVR_AAA, 300⟩])] =
      ⟨[], [300], [], []⟩ ∧
    extract_measurements_by_battery_type
        [("detection_monitor_aaa_20250101_120000.log", [⟨.KLVR_AAA, 300⟩])] =
      ⟨[], [], [300], []⟩ := by
  constructor <;> decide

/-- **C2**: on correct-A deltas `[-10, -5, 0, 5, 10]` and
misdetected-A-as-B deltas `[280, 300, 320]` the one-sided calibration
computes a 99th-percentile absolute boundary of 10, minimum
misdetection magnitude 280, declares the separation clean, and the
midpoint threshold 145 (the final recommendation is then the
99th-percentile boundary at HIGH confidence). -/
theorem delta_example_calibration :
    recommend_optimal_threshold [-10, -5, 0, 5, 10] [280, 300, 320] [] [] =
      some { p90 := 10, p95 := 10, p99 := 10, p999 := 10
             separation := some { misdetection_min := 280, clean := true, optimal := some 145 }
             recommended := 10, confidence := .HIGH } := by
  decide

/-- Helper: with misdetection data present, the final confidence of
`recommend_optimal_threshold` is graded by which absolute percentile
boundary strictly clears the minimum misdetection magnitude. -/
theorem thresholdReport_confidence_eq (aa mis : List Int) (hm : mis ≠ []) :
    (thresholdReport aa mis).confidence =
      (if absBoundary aa 990 < minMisMagnitude mis then Confidence.HIGH
       else if absBoundary aa 950 < minMisMagnitude mis then Confidence.MEDIUM
       else Confidence.LOW) := by
  simp [thresholdReport, absBoundary, minMisMagnitude, hm]

/-- Helper: the final recommended value follows the same grading. -/
theorem thresholdReport_recommended_eq (aa mis : List Int) (hm : mis ≠ []) :
    (thresholdReport aa mis).recommended =
      (if absBoundary aa 990 < minMisMagnitude mis then absBoundary aa 990
       else if absBoundary aa 950 < minMisMagnitude mis then absBoundary aa 950
       else absBoundary aa 900) := by
  simp [thresholdReport, absBoundary, minMisMagnitude, hm]

/-- **C3**: for non-empty class-A data and non-empty misdetection data
the confidence grade is `HIGH` exactly when the 99th-percentile
absolute boundary is strictly below the minimum misdetection magnitude,
`MEDIUM` exactly when only the 95th-percentile boundary clears that
bar, and `LOW` otherwise; with an empty misdetection set the
calibration still succeeds, recommends the 99th-percentile boundary and
grades `MEDIUM`. -/
theorem confidence_grading (aa mis aaa aaaf : List Int) (ha : aa ≠ []) (hm : mis ≠ []) :
    (recommend_optimal_threshold aa mis aaa aaaf = some (thresholdReport aa mis)) ∧
    ((thresholdReport aa mis).confidence = .HIGH ↔
      absBoundary aa 990 < minMisMagnitude mis) ∧
    ((thresholdReport aa mis).confidence = .MEDIUM ↔
      (¬ absBoundary aa 990 < minMisMagnitude mis ∧
        absBoundary aa 950 < minMisMagnitude mis)) ∧
    ((thresholdReport aa mis).confidence = .LOW ↔
      (¬ absBoundary aa 990 < minMisMagnitude mis ∧
        ¬ absBoundary aa 950 < minMisMagnitude mis)) ∧
    (recommend_optimal_threshold aa [] aaa aaaf = some (thresholdReport aa [])) ∧
    ((thresholdReport aa []).recommended = absBoundary aa 990) ∧
    ((thresholdReport aa []).confidence = .MEDIUM) := by
  refine ⟨by simp [recommend_optimal_threshold, ha], ?_, ?_, ?_,
    by simp [recommend_optimal_threshold, ha], by simp [thresholdReport, absBoundary],
    by simp [thresholdReport]⟩ <;>
    rw [thresholdReport_confidence_eq aa mis hm] <;>
    by_cases h99 : absBoundary aa 990 < minMisMagnitude mis <;>
    by_cases h95 : absBoundary aa 950 < minMisMagnitude mis <;>
    simp [h99, h95]

/-- Witness for `confidence_grading` at the example corpus. -/
theorem confidence_grading_witness :
    ([-10, -5, 0, 5, 10] : List Int) ≠ [] ∧ ([280, 300, 320] : List Int) ≠ [] ∧
    ((recommend_optimal_threshold [-10, -5, 0, 5, 10] [280, 300, 320] [] [] =
        some (thresholdReport [-10, -5, 0, 5, 10] [280, 300, 320])) ∧
      ((thresholdReport [-10, -5, 0, 5, 10] [280, 300, 320]).confidence = .HIGH ↔
        absBoundary [-10, -5, 0, 5, 10] 990 < minMisMagnitude [280, 300, 320]) ∧
      ((thresholdReport [-10, -5, 0, 5, 10] [280, 300, 320]).confidence = .MEDIUM ↔
        (¬ absBoundary [-10, -5, 0, 5, 10] 990 < minMisMagnitude [280, 300, 320] ∧
          absBoundary [-10, -5, 0, 5, 10] 950 < minMisMagnitude [280, 300, 320])) ∧
      ((thresholdReport [-10, -5, 0, 5, 10] [280, 300, 320]).confidence = .LOW ↔
        (¬ absBoundary [-10, -5, 0, 5, 10] 990 < minMisMagnitude [280, 300, 320] ∧
          ¬ absBoundary [-10, -5, 0, 5, 10] 950 < minMisMagnitude [280, 300, 320])) ∧
      (recommend_optimal_threshold [-10, -5, 0, 5, 10] [] [] [] =
        some (thresholdReport [-10, -5, 0, 5, 10] [])) ∧
      ((thresholdReport [-10, -5, 0, 5, 10] []).recommended =
        absBoundary [-10, -5, 0, 5, 10] 990) ∧
      ((thresholdReport [-10, -5, 0, 5, 10] []).confidence = .MEDIUM)) :=
  ⟨by decide, by decide,
    confidence_grading [-10, -5, 0, 5, 10] [280, 300, 320] [] [] (by decide) (by decide)⟩

/-- **C4** (code bug evidence): a single-sample class-A set reaches the
unguarded `statistics.stdev(aa_correct)` call at
`proper_dual_range_analysis.py` line 226 and raises a
`StatisticsError` instead of completing with a 0 standard deviation as
the spec requires (the sibling routines guard this case with
`... if len(l) > 1 else 0`). -/
theorem single_sample_stdev_raises :
    recommend_optimal_dual_ranges [5] [] [] [] =
      .error "stdev requires at least two data points" := by
  rfl

/-- **C10**: both calibration entry points are pure functions of their
input sample lists — identical inputs yield identical recommended
boundaries and confidence grades. -/
theorem calibration_deterministic (aa mis aaa aaaf aa2 mis2 aaa2 aaaf2 : List Int)
    (h1 : aa = aa2) (h2 : mis = mis2) (h3 : aaa = aaa2) (h4 : aaaf = aaaf2) :
    recommend_optimal_threshold aa mis aaa aaaf =
      recommend_optimal_threshold aa2 mis2 aaa2 aaaf2 ∧
    recommend_dual_ranges aa aaa mis aaaf =
      recommend_dual_ranges aa2 aaa2 mis2 aaaf2 := by
  subst h1; subst h2; subst h3; subst h4
  exact ⟨rfl, rfl⟩

/-- Witness for `calibration_deterministic` at the example corpus. -/
theorem calibration_deterministic_witness :
    recommend_optimal_threshold [-10, -5, 0, 5, 10] [280, 300, 320] [] [] =
      recommend_optimal_threshold [-10, -5, 0, 5, 10] [280, 300, 320] [] [] ∧
    recommend_dual_ranges [-10, -5, 0, 5, 10] [] [280, 300, 320] [] =
      recommend_dual_ranges [-10, -5, 0, 5, 10] [] [280, 300, 320] [] :=
  calibration_deterministic [-10, -5, 0, 5, 10] [280, 300, 320] [] []
    [-10, -5, 0, 5, 10] [280, 300, 320] [] [] rfl rfl rfl rfl

/-! ## Monitor lemmas and claim theorems -/

/-- Helper: the number of misdetection entries produced by the slot
loop equals the number of occupied, debug-carrying slots satisfying the
misdetection predicate. -/
theorem detectLoop_mis_length (tt : String) (i : ℕ) (bats : List BatterySlot) :
    (detectLoop tt i bats).misdetections.length =
      bats.countP (fun b => (b.slotState != "empty") && b.debug.isSome && misPredB tt b) := by
  induction bats generalizing i with
  | nil => rfl
  | cons b rest ih =>
    simp only [detectLoop, List.countP_cons]
    by_cases hocc : (b.slotState != "empty") = true
    · cases hdbg : b.debug with
      | none => simp [hocc, hdbg, ih]
      | some d =>
        by_cases htt : (tt == "aa") = true
        · by_cases hAAA : strContains b.batteryDetected "AAA" = true
          · simp [misPredB, hocc, hdbg, htt, hAAA, ih]
          · by_cases hAA : strContains b.batteryDetected "AA" = true
            · simp [misPredB, hocc, hdbg, htt, hAAA, hAA, ih]
            · simp [misPredB, hocc, hdbg, htt, hAAA, hAA, ih]
        · by_cases htt2 : (tt == "aaa") = true
          · by_cases hAAA : strContains b.batteryDetected "AAA" = true
            · simp [misPredB, hocc, hdbg, htt, htt2, hAAA, ih]
            · simp [misPredB, hocc, hdbg, htt, htt2, hAAA, ih]
          · simp [misPredB, hocc, hdbg, htt, htt2, ih]
    · simp [hocc, ih]

/-- Provenance of a loop entry: it originates at an occupied,
debug-carrying slot of the snapshot at its enumeration index (and, when
`needMis` is set, one satisfying the misdetection predicate). -/
def entryFrom (tt : String) (bats : List BatterySlot) (i : ℕ) (e : DebugEntry)
    (needMis : Bool) : Prop :=
  ∃ k b d, bats.get? k = some b ∧ e.slot = i + k ∧ (b.slotState != "empty") = true ∧
    b.debug = some d ∧ (needMis = true → misPredB tt b = true) ∧ e = mkDebugEntry (i + k) b d

/-- Helper: provenance is preserved when a slot is prepended. -/
theorem entryFrom_shift {tt : String} {rest : List BatterySlot} {i : ℕ} {e : DebugEntry}
    {nm : Bool} (b : BatterySlot) (h : entryFrom tt rest (i + 1) e nm) :
    entryFrom tt (b :: rest) i e nm := by
  obtain ⟨k, b2, d, h1, h2, h3, h4, h5, h6⟩ := h
  refine ⟨k + 1, b2, d, by simpa using h1, by omega, h3, h4, h5, ?_⟩
  have hik : i + (k + 1) = (i + 1) + k := by omega
  rw [hik]
  exact h6

/-- Helper: provenance at the head slot. -/
theorem entryFrom_here {tt : String} {rest : List BatterySlot} {i : ℕ} {e : DebugEntry}
    {nm : Bool} {b : BatterySlot} {d : DebugInfo} (hocc : (b.slotState != "empty") = true)
    (hdbg : b.debug = some d) (hmis : nm = true → misPredB tt b = true)
    (he : e = mkDebugEntry i b d) : entryFrom tt (b :: rest) i e nm :=
  ⟨0, b, d, rfl, by simp [he, mkDebugEntry], hocc, hdbg, hmis, by simpa using he⟩

/-- Helper: every misdetection entry of the slot loop comes from an
occupied, debug-carrying slot satisfying the misdetection predicate,
and every correct-detection entry from an occupied, debug-carrying
slot. -/
theorem detectLoop_mem (tt : String) (i : ℕ) (bats : List BatterySlot) (e : DebugEntry) :
    (e ∈ (detectLoop tt i bats).misdetections → entryFrom tt bats i e true) ∧
    (e ∈ (detectLoop tt i bats).correct_detections → entryFrom tt bats i e false) := by
  induction bats generalizing i with
  | nil =>
    exact ⟨fun h => absurd h (by simp [detectLoop]), fun h => absurd h (by simp [detectLoop])⟩
  | cons b rest ih =>
    by_cases hocc : (b.slotState != "empty") = true
    case neg =>
      exact ⟨fun he => entryFrom_shift b ((ih (i + 1)).1 (by simpa [detectLoop, hocc] using he)),
        fun he => entryFrom_shift b ((ih (i + 1)).2 (by simpa [detectLoop, hocc] using he))⟩
    cases hdbg : b.debug with
    | none =>
      exact ⟨fun he => entryFrom_shift b ((ih (i + 1)).1 (by simpa [detectLoop, hocc, hdbg] using he)),
        fun he => entryFrom_shift b ((ih (i + 1)).2 (by simpa [detectLoop, hocc, hdbg] using he))⟩
    | some d =>
      by_cases htt : (tt == "aa") = true
      · by_cases hAAA : strContains b.batteryDetected "AAA" = true
        · constructor <;> intro he
          · rcases (by simpa [detectLoop, hocc, hdbg, htt, hAAA] using he :
                e = mkDebugEntry i b d ∨ e ∈ (detectLoop tt (i + 1) rest).misdetections) with
              h | h
            · exact entryFrom_here hocc hdbg
                (fun _ => by simp [misPredB, htt, hAAA]) h
            · exact entryFrom_shift b ((ih (i + 1)).1 h)
          · exact entryFrom_shift b
              ((ih (i + 1)).2 (by simpa [detectLoop, hocc, hdbg, htt, hAAA] using he))
        · by_cases hAA : strContains b.batteryDetected "AA" = true
          · constructor <;> intro he
            · exact entryFrom_shift b
                ((ih (i + 1)).1 (by simpa [detectLoop, hocc, hdbg, htt, hAAA, hAA] using he))
            · rcases (by simpa [detectLoop, hocc, hdbg, htt, hAAA, hAA] using he :
                  e = mkDebugEntry i b d ∨
                    e ∈ (detectLoop tt (i + 1) rest).correct_detections) with h | h
              · exact entryFrom_here hocc hdbg (fun hx => by cases hx) h
              · exact entryFrom_shift b ((ih (i + 1)).2 h)
          · exact ⟨fun he => entryFrom_shift b
                ((ih (i + 1)).1 (by simpa [detectLoop, hocc, hdbg, htt, hAAA, hAA] using he)),
              fun he => entryFrom_shift b
                ((ih (i + 1)).2 (by simpa [detectLoop, hocc, hdbg, htt, hAAA, hAA] using he))⟩
      · by_cases htt2 : (tt == "aaa") = true
        · by_cases hAAA : strContains b.batteryDetected "AAA" = true
          · constructor <;> intro he
            · exact entryFrom_shift b
                ((ih (i + 1)).1 (by simpa [detectLoop, hocc, hdbg, htt, htt2, hAAA] using he))
            · rcases (by simpa [detectLoop, hocc, hdbg, htt, htt2, hAAA] using he :
                  e = mkDebugEntry i b d ∨
                    e ∈ (detectLoop tt (i + 1) rest).correct_detections) with h | h
              · exact entryFrom_here hocc hdbg (fun hx => by cases hx) h
              · exact entryFrom_shift b ((ih (i + 1)).2 h)
          · constructor <;> intro he
            · rcases (by simpa [detectLoop, hocc, hdbg, htt, htt2, hAAA] using he :
                  e = mkDebugEntry i b d ∨
                    e ∈ (detectLoop tt (i + 1) rest).misdetections) with h | h
              · exact entryFrom_here hocc hdbg
                  (fun _ => by simp [misPredB, htt, htt2, hAAA]) h
              · exact entryFrom_shift b ((ih (i + 1)).1 h)
            · exact entryFrom_shift b
                ((ih (i + 1)).2 (by simpa [detectLoop, hocc, hdbg, htt, htt2, hAAA] using he))
        · exact ⟨fun he => entryFrom_shift b
              ((ih (i + 1)).1 (by simpa [detectLoop, hocc, hdbg, htt, htt2] using he)),
            fun he => entryFrom_shift b
              ((ih (i + 1)).2 (by simpa [detectLoop, hocc, hdbg, htt, htt2] using he))⟩

/-- **C6**: an occupied slot whose snapshot entry lacks a `debug`
object is counted in the occupancy total and the per-type tallies
(which range over all occupied slots irrespective of debug data) but
never contributes an entry to the misdetection or correct-detection
lists, so it can never trigger a misdetection alert or a per-slot
detail line in any test mode. -/
theorem no_debug_slot_never_flagged (bats : List BatterySlot) (tt : String) (i : ℕ)
    (b : BatterySlot) (hb : bats.get? i = some b)
    (hocc : (b.slotState != "empty") = true) (hdbg : b.debug = none) :
    analyze_detection (some { batteries := some bats }) tt = some (analyzeBats bats tt) ∧
    (analyzeBats bats tt).total =
      (bats.filter (fun s => s.slotState != "empty")).length ∧
    (analyzeBats bats tt).aa_count =
      ((bats.filter (fun s => s.slotState != "empty")).filter (fun s =>
        strContains s.batteryDetected "AA" && !strContains s.batteryDetected "AAA")).length ∧
    (analyzeBats bats tt).aaa_count =
      ((bats.filter (fun s => s.slotState != "empty")).filter (fun s =>
        strContains s.batteryDetected "AAA")).length ∧
    (∀ e ∈ (analyzeBats bats tt).misdetections, e.slot ≠ i) ∧
    (∀ e ∈ (analyzeBats bats tt).correct_detections, e.slot ≠ i) := by
  refine ⟨rfl, rfl, rfl, rfl, ?_, ?_⟩ <;> intro e he heq
  · obtain ⟨k, b2, d, h1, h2, h3, h4, h5, h6⟩ := (detectLoop_mem tt 0 bats e).1 he
    rw [heq] at h2
    have hk : k = i := by omega
    rw [hk] at h1
    rw [hb] at h1
    cases h1
    rw [hdbg] at h4
    cases h4
  · obtain ⟨k, b2, d, h1, h2, h3, h4, h5, h6⟩ := (detectLoop_mem tt 0 bats e).2 he
    rw [heq] at h2
    have hk : k = i := by omega
    rw [hk] at h1
    rw [hb] at h1
    cases h1
    rw [hdbg] at h4
    cases h4

/-- Witness for `no_debug_slot_never_flagged`: one occupied class-A
slot without a debug object, under test mode `aa`. -/
theorem no_debug_slot_never_flagged_witness :
    analyze_detection (some { batteries := some [slotAnoDebug] }) "aa" =
      some (analyzeBats [slotAnoDebug] "aa") ∧
    (analyzeBats [slotAnoDebug] "aa").total =
      (([slotAnoDebug] : List BatterySlot).filter (fun s => s.slotState != "empty")).length ∧
    (analyzeBats [slotAnoDebug] "aa").aa_count =
      ((([slotAnoDebug] : List BatterySlot).filter (fun s => s.slotState != "empty")).filter
        (fun s =>
          strContains s.batteryDetected "AA" && !strContains s.batteryDetected "AAA")).length ∧
    (analyzeBats [slotAnoDebug] "aa").aaa_count =
      ((([slotAnoDebug] : List BatterySlot).filter (fun s => s.slotState != "empty")).filter
        (fun s => strContains s.batteryDetected "AAA")).length ∧
    (∀ e ∈ (analyzeBats [slotAnoDebug] "aa").misdetections, e.slot ≠ 0) ∧
    (∀ e ∈ (analyzeBats [slotAnoDebug] "aa").correct_detections, e.slot ≠ 0) :=
  no_debug_slot_never_flagged [slotAnoDebug] "aa" 0 slotAnoDebug rfl (by decide) rfl

/-- **C8**: when the status fetch raises (any exception, modelled by
the `Except.error` outcome of the attempt), `get_charger_status`
returns no data and the cycle is still a total function: it writes
exactly the connection-failed summary line, stores no analysis, and
advances the reading counter so the next cycle executes. -/
theorem fetch_failure_cycle (msg : String) (n : ℕ) (tt : String) (last : Option Analysis) :
    get_charger_status (.error msg) = none ∧
    monitorCycle n tt (.error msg) last =
      ([.summary (.connectionFailed n)], none, n + 1) := by
  refine ⟨rfl, ?_⟩
  cases last <;> rfl

/-- **C9**: in unconstrained (`both`) test mode the misdetection list
of every analysis is empty, no cycle ever writes a misdetection alert
or per-slot misdetection detail line, and the summary of a successful
cycle is the plain per-type tally line — the alerting state is never
entered. -/
theorem both_mode_never_alerts :
    (∀ bats : List BatterySlot, (analyzeBats bats "both").misdetections = []) ∧
    (∀ (n : ℕ) (resp : Except String ChargerData) (last : Option Analysis),
      ∀ l ∈ (monitorCycle n "both" resp last).1, isMisdetectionLine l = false) ∧
    (∀ (bats : List BatterySlot) (n : ℕ) (last : Option Analysis),
      (monitorCycle n "both" (.ok { batteries := some bats }) last).1.head? =
        some (.summary (.bothTally n (analyzeBats bats "both").total
          (analyzeBats bats "both").aa_count (analyzeBats bats "both").aaa_count))) := by
  have hloop : ∀ (i : ℕ) (bats : List BatterySlot),
      (detectLoop "both" i bats).misdetections = [] := by
    intro i bats
    induction bats generalizing i with
    | nil => rfl
    | cons b rest ih =>
      have h1 : (("both" : String) == "aa") = false := rfl
      have h2 : (("both" : String) == "aaa") = false := rfl
      by_cases hocc : (b.slotState != "empty") = true
      · cases hdbg : b.debug with
        | none => simp [detectLoop, hocc, hdbg, ih]
        | some d => simp [detectLoop, hocc, hdbg, h1, h2, ih]
      · simp [detectLoop, hocc, ih]
  have hmis : ∀ bats : List BatterySlot, (analyzeBats bats "both").misdetections = [] :=
    fun bats => hloop 0 bats
  refine ⟨hmis, ?_, fun bats n last => rfl⟩
  intro n resp last l hl
  rcases resp with msg | d
  · cases last <;> simp [monitorCycle, get_charger_status, analyze_detection] at hl <;>
      simp [hl, isMisdetectionLine]
  · rcases d with ⟨bt⟩
    rcases bt with _ | bats
    · cases last <;> simp [monitorCycle, get_charger_status, analyze_detection] at hl <;>
        simp [hl, isMisdetectionLine]
    · have hz : (analyzeBats bats "both").misdetections.length = 0 := by
        rw [hmis bats]; rfl
      rcases last with _ | la
      · simp [monitorCycle, get_charger_status, analyze_detection, hz] at hl
        rcases hl with hl | ⟨hg, e2, he2, hl⟩
        · simp [hl, isMisdetectionLine]
        · simp [← hl, isMisdetectionLine]
      · simp [monitorCycle, get_charger_status, analyze_detection, hz] at hl
        rcases hl with hl | ⟨hg, e2, he2, hl⟩ | ⟨hne, hl⟩
        · simp [hl, isMisdetectionLine]
        · simp [← hl, isMisdetectionLine]
        · simp [hl, isMisdetectionLine]

/-- Helper: on a cycle whose analysis found misdetections, the written
lines start with the summary line and contain the alert line and one
detail line per misdetection. -/
theorem monitorCycle_alert_lines (n : ℕ) (tt : String) (bats : List BatterySlot)
    (last : Option Analysis) (hpos : 0 < (analyzeBats bats tt).misdetections.length) :
    (monitorCycle n tt (.ok { batteries := some bats }) last).1.head? =
      some (.summary (format_detection_line n (some (analyzeBats bats tt)))) ∧
    LogLine.alert tt (analyzeBats bats tt).misdetections.length ∈
      (monitorCycle n tt (.ok { batteries := some bats }) last).1 ∧
    ∀ e ∈ (analyzeBats bats tt).misdetections,
      LogLine.misdetectionDetail e ∈
        (monitorCycle n tt (.ok { batteries := some bats }) last).1 := by
  refine ⟨rfl, ?_, ?_⟩
  · simp [monitorCycle, get_charger_status, analyze_detection, hpos]
  · intro e he
    simp [monitorCycle, get_charger_status, analyze_detection, hpos, he]

/-- Helper: `misPredB` in mode `aa` is the class-B label test. -/
theorem misPredB_aa (b : BatterySlot) :
    misPredB "aa" b = strContains b.batteryDetected "AAA" := rfl

/-- **C5 counterexample**: with exactly two occupied slots, one
resolving to class A and one to class B, but no `debug` object on the
class-B slot, the monitor in mode `aa` reports zero misdetections and
the cycle writes only the summary line — no alert, no per-slot detail —
refuting the claim that every such snapshot yields exactly one reported
misdetection with an alert. -/
theorem dual_slot_without_debug_no_alert :
    resolvesClassA slotAnoDebug = true ∧ resolvesClassB slotBnoDebug = true ∧
    (analyzeBats [slotAnoDebug, slotBnoDebug] "aa").total = 2 ∧
    (analyzeBats [slotAnoDebug, slotBnoDebug] "aa").misdetections = [] ∧
    (monitorCycle 1 "aa" (.ok { batteries := some [slotAnoDebug, slotBnoDebug] }) none).1 =
      [.summary (.aaTest 1 2 0 0 false)] := by
  refine ⟨?_, ?_, ?_, ?_, ?_⟩ <;> rfl

/-- **C5 amended**: for every snapshot with exactly two occupied slots,
one resolving to class A and one to class B, where the class-B slot
carries a `debug` object, the monitor in mode `aa` reports exactly one
misdetection (an entry whose detected label resolves to class B),
writes the cycle summary line (with misdetection count 1 and the alert
status), the higher-severity alert line, and the per-slot detail line
of the misdetected slot. -/
theorem dual_slot_misdetection_cycle (bats : List BatterySlot) (x y : BatterySlot)
    (d : DebugInfo) (n : ℕ) (last : Option Analysis)
    (hfilter : bats.filter (fun b => b.slotState != "empty") = [x, y])
    (hxy : (resolvesClassA x = true ∧ resolvesClassB y = true ∧ y.debug = some d) ∨
           (resolvesClassB x = true ∧ x.debug = some d ∧ resolvesClassA y = true)) :
    (analyzeBats bats "aa").total = 2 ∧
    (analyzeBats bats "aa").misdetections.length = 1 ∧
    (∀ e ∈ (analyzeBats bats "aa").misdetections,
      strContains e.detected_type "AAA" = true) ∧
    (monitorCycle n "aa" (.ok { batteries := some bats }) last).1.head? =
      some (.summary (.aaTest n 2 (analyzeBats bats "aa").correct_detections.length 1 true)) ∧
    LogLine.alert "aa" 1 ∈ (monitorCycle n "aa" (.ok { batteries := some bats }) last).1 ∧
    (∀ e ∈ (analyzeBats bats "aa").misdetections,
      LogLine.misdetectionDetail e ∈
        (monitorCycle n "aa" (.ok { batteries := some bats }) last).1) := by
  have htot : (analyzeBats bats "aa").total = 2 := by
    show (bats.filter (fun b => b.slotState != "empty")).length = 2
    rw [hfilter]
    rfl
  have hoccx : (x.slotState != "empty") = true := by
    have hx : x ∈ bats.filter (fun b => b.slotState != "empty") := by
      rw [hfilter]; exact List.mem_cons_self x [y]
    exact (List.mem_filter.mp hx).2
  have hoccy : (y.slotState != "empty") = true := by
    have hy : y ∈ bats.filter (fun b => b.slotState != "empty") := by
      rw [hfilter]; exact List.mem_cons_of_mem x (List.mem_cons_self y [])
    exact (List.mem_filter.mp hy).2
  have hcount : (analyzeBats bats "aa").misdetections.length = 1 := by
    show (detectLoop "aa" 0 bats).misdetections.length = 1
    rw [detectLoop_mis_length]
    have hsplit : (bats.filter (fun b => b.slotState != "empty")).countP
        (fun b => b.debug.isSome && misPredB "aa" b) =
        bats.countP (fun b =>
          (b.debug.isSome && misPredB "aa" b) && (b.slotState != "empty")) :=
      List.countP_filter _ _ _
    rw [hfilter] at hsplit
    have hcongr : bats.countP
        (fun b => (b.slotState != "empty") && b.debug.isSome && misPredB "aa" b) =
        bats.countP (fun b =>
          (b.debug.isSome && misPredB "aa" b) && (b.slotState != "empty")) :=
      List.countP_congr (fun b _ => by
        simp only [Bool.and_eq_true]
        tauto)
    rw [hcongr, ← hsplit]
    rcases hxy with ⟨hxA, hyB, hyd⟩ | ⟨hxB, hxd, hyA⟩
    · have hxm : misPredB "aa" x = false := by
        rw [misPredB_aa]
        rcases (Bool.and_eq_true _ _).mp hxA with ⟨h1, h2⟩
        simpa using h2
      have hym : misPredB "aa" y = true := by rw [misPredB_aa]; exact hyB
      simp [List.countP_cons, hxm, hym, hyd, hoccy]
    · have hxm : misPredB "aa" x = true := by rw [misPredB_aa]; exact hxB
      have hym : misPredB "aa" y = false := by
        rw [misPredB_aa]
        rcases (Bool.and_eq_true _ _).mp hyA with ⟨h1, h2⟩
        simpa using h2
      simp [List.countP_cons, hxm, hym, hxd, hoccx]
  have hpos : 0 < (analyzeBats bats "aa").misdetections.length := by
    rw [hcount]
    exact Nat.one_pos
  obtain ⟨hhead, halert, hdetail⟩ :=
    monitorCycle_alert_lines n "aa" bats last hpos
  have hAAAlabel : ∀ e ∈ (analyzeBats bats "aa").misdetections,
      strContains e.detected_type "AAA" = true := by
    intro e he
    obtain ⟨k, b2, d2, h1, h2, h3, h4, h5, h6⟩ := (detectLoop_mem "aa" 0 bats e).1 he
    have hm : strContains b2.batteryDetected "AAA" = true := by
      rw [← misPredB_aa]
      exact h5 rfl
    rw [h6]
    exact hm
  refine ⟨htot, hcount, hAAAlabel, ?_, ?_, hdetail⟩
  · rw [hhead]
    have hfmt : format_detection_line n (some (analyzeBats bats "aa")) =
        .aaTest n (analyzeBats bats "aa").total
          (analyzeBats bats "aa").correct_detections.length
          (analyzeBats bats "aa").misdetections.length
          (decide (0 < (analyzeBats bats "aa").misdetections.length)) := rfl
    rw [hfmt, htot, hcount]
    exact rfl
  · rw [hcount] at halert
    exact halert

/-- Witness for `dual_slot_misdetection_cycle`: the snapshot
`[slotA, slotB]` with the class-B slot carrying a debug object. -/
theorem dual_slot_misdetection_cycle_witness :
    (analyzeBats [slotA, slotB] "aa").total = 2 ∧
    (analyzeBats [slotA, slotB] "aa").misdetections.length = 1 ∧
    (∀ e ∈ (analyzeBats [slotA, slotB] "aa").misdetections,
      strContains e.detected_type "AAA" = true) ∧
    (monitorCycle 1 "aa" (.ok { batteries := some [slotA, slotB] }) none).1.head? =
      some (.summary (.aaTest 1 2 (analyzeBats [slotA, slotB] "aa").correct_detections.length
        1 true)) ∧
    LogLine.alert "aa" 1 ∈ (monitorCycle 1 "aa" (.ok { batteries := some [slotA, slotB] }) none).1 ∧
    (∀ e ∈ (analyzeBats [slotA, slotB] "aa").misdetections,
      LogLine.misdetectionDetail e ∈
        (monitorCycle 1 "aa" (.ok { batteries := some [slotA, slotB] }) none).1) :=
  dual_slot_misdetection_cycle [slotA, slotB] slotA slotB debug300 1 none (by decide)
    (Or.inl ⟨by decide, by decide, rfl⟩)

/-! ## Floor-index percentile estimator (claim C7) -/

/-- Helper: the sort used by the scripts permutes its input. -/
theorem pySorted_perm (l : List Int) : List.Perm (pySorted l) l :=
  List.perm_insertionSort _ l

/-- Helper: the sort used by the scripts sorts ascending. -/
theorem pySorted_sorted (l : List Int) : (pySorted l).Sorted (· ≤ ·) :=
  List.sorted_insertionSort _ l

/-- Helper: a min-fold is bounded by its initial value. -/
theorem foldl_min_le_init (xs : List Int) : ∀ a : Int, xs.foldl min a ≤ a := by
  induction xs with
  | nil => intro a; exact le_refl a
  | cons x xs ih => intro a; exact le_trans (ih (min a x)) (min_le_left a x)

/-- Helper: a min-fold is bounded by every list element. -/
theorem foldl_min_le_mem (xs : List Int) : ∀ (a x : Int), x ∈ xs → xs.foldl min a ≤ x := by
  induction xs with
  | nil => intro a x hx; cases hx
  | cons z xs ih =>
    intro a x hx
    rcases List.mem_cons.mp hx with rfl | hx2
    · exact le_trans (foldl_min_le_init xs (min a x)) (min_le_right a x)
    · exact ih (min a z) x hx2

/-- Helper: a min-fold returns its initial value or a list element. -/
theorem foldl_min_mem (xs : List Int) : ∀ a : Int, xs.foldl min a = a ∨ xs.foldl min a ∈ xs := by
  induction xs with
  | nil => intro a; exact Or.inl rfl
  | cons z xs ih =>
    intro a
    rcases ih (min a z) with h | h
    · rcases min_choice a z with hc | hc
      · exact Or.inl (h.trans hc)
      · exact Or.inr (List.mem_cons.mpr (Or.inl (h.trans hc)))
    · exact Or.inr (List.mem_cons.mpr (Or.inr h))

/-- Helper: Python `min` returns an element of a non-empty list. -/
theorem pyMin_mem (l : List Int) (h : l ≠ []) : pyMin l ∈ l := by
  cases l with
  | nil => exact absurd rfl h
  | cons x xs =>
    show xs.foldl min x ∈ x :: xs
    rcases foldl_min_mem xs x with h1 | h1
    · rw [h1]; exact List.mem_cons_self x xs
    · exact List.mem_cons_of_mem x h1

/-- Helper: Python `min` bounds every element of the list. -/
theorem pyMin_le (l : List Int) (x : Int) (hx : x ∈ l) : pyMin l ≤ x := by
  cases l with
  | nil => cases hx
  | cons z xs =>
    show xs.foldl min z ≤ x
    rcases List.mem_cons.mp hx with rfl | hx2
    · exact foldl_min_le_init xs x
    · exact foldl_min_le_mem xs z x hx2

/-- Helper: a max-fold dominates its initial value. -/
theorem foldl_max_init_le (xs : List Int) : ∀ a : Int, a ≤ xs.foldl max a := by
  induction xs with
  | nil => intro a; exact le_refl a
  | cons x xs ih => intro a; exact le_trans (le_max_left a x) (ih (max a x))

/-- Helper: a max-fold dominates every list element. -/
theorem foldl_max_mem_le (xs : List Int) : ∀ (a x : Int), x ∈ xs → x ≤ xs.foldl max a := by
  induction xs with
  | nil => intro a x hx; cases hx
  | cons z xs ih =>
    intro a x hx
    rcases List.mem_cons.mp hx with rfl | hx2
    · exact le_trans (le_max_right a x) (foldl_max_init_le xs (max a x))
    · exact ih (max a z) x hx2

/-- Helper: a max-fold returns its initial value or a list element. -/
theorem foldl_max_mem (xs : List Int) : ∀ a : Int, xs.foldl max a = a ∨ xs.foldl max a ∈ xs := by
  induction xs with
  | nil => intro a; exact Or.inl rfl
  | cons z xs ih =>
    intro a
    rcases ih (max a z) with h | h
    · rcases max_choice a z with hc | hc
      · exact Or.inl (h.trans hc)
      · exact Or.inr (List.mem_cons.mpr (Or.inl (h.trans hc)))
    · exact Or.inr (List.mem_cons.mpr (Or.inr h))

/-- Helper: Python `max` returns an element of a non-empty list. -/
theorem pyMax_mem (l : List Int) (h : l ≠ []) : pyMax l ∈ l := by
  cases l with
  | nil => exact absurd rfl h
  | cons x xs =>
    show xs.foldl max x ∈ x :: xs
    rcases foldl_max_mem xs x with h1 | h1
    · rw [h1]; exact List.mem_cons_self x xs
    · exact List.mem_cons_of_mem x h1

/-- Helper: Python `max` dominates every element of the list. -/
theorem le_pyMax (l : List Int) (x : Int) (hx : x ∈ l) : x ≤ pyMax l := by
  cases l with
  | nil => cases hx
  | cons z xs =>
    show x ≤ xs.foldl max z
    rcases List.mem_cons.mp hx with rfl | hx2
    · exact foldl_max_init_le xs x
    · exact foldl_max_mem_le xs z x hx2

/-- Helper: the head of a sorted list bounds every element. -/
theorem sorted_head_le {s : List Int} (hs : s.Sorted (· ≤ ·)) (x : Int) (hx : x ∈ s) :
    s.headI ≤ x := by
  cases s with
  | nil => cases hx
  | cons a t =>
    rw [List.sorted_cons] at hs
    rcases List.mem_cons.mp hx with rfl | hx2
    · exact le_refl x
    · exact hs.1 x hx2

/-- Helper: the last element of a sorted list dominates every element. -/
theorem sorted_le_getLast : ∀ (s : List Int), s.Sorted (· ≤ ·) → ∀ (h : s ≠ []),
    ∀ x ∈ s, x ≤ s.getLast h := by
  intro s
  induction s with
  | nil => intro _ h; exact absurd rfl h
  | cons a t ih =>
    intro hs h x hx
    rw [List.sorted_cons] at hs
    cases t with
    | nil =>
      rcases List.mem_cons.mp hx with rfl | hx2
      · exact le_refl x
      · cases hx2
    | cons b u =>
      rw [List.getLast_cons (List.cons_ne_nil b u)]
      rcases List.mem_cons.mp hx with rfl | hx2
      · exact le_trans (hs.1 b (List.mem_cons_self b u))
          (ih hs.2 (List.cons_ne_nil b u) b (List.mem_cons_self b u))
      · exact ih hs.2 (List.cons_ne_nil b u) x hx2

/-- Helper: reading the last valid index with a default is `getLast`. -/
theorem getD_last (s : List Int) (h : s ≠ []) : s.getD (s.length - 1) 0 = s.getLast h := by
  induction s with
  | nil => exact absurd rfl h
  | cons a t ih =>
    cases t with
    | nil => rfl
    | cons b u =>
      rw [List.getLast_cons (List.cons_ne_nil b u)]
      show (b :: u).getD ((b :: u).length - 1) 0 = _
      exact ih (List.cons_ne_nil b u)

/-- Helper: the clamped index is always within bounds on a non-empty
sequence, whatever the percentile level. -/
theorem clampedIdx_lt (p : ℚ) (n : ℕ) (hn : 0 < n) : clampedIdx p n < n := by
  unfold clampedIdx
  by_cases hle : n ≤ qIdx p n
  · simp only [hle, if_true]
    omega
  · simp only [hle, if_false]
    omega

/-- **C7**: the clamped floor-index percentile estimator returns the
minimum element at level 0 and the maximum element at level 100 on
every non-empty integer sequence, and its index never leaves the valid
range for any level in [0, 100]. -/
theorem percentile_endpoints (l : List Int) (h : l ≠ []) :
    pyPercentile l 0 = pyMin l ∧ pyPercentile l 100 = pyMax l ∧
    ∀ p : ℚ, 0 ≤ p → p ≤ 100 → clampedIdx p l.length < l.length := by
  have hn : 0 < l.length := List.length_pos.mpr h
  have hlen : (pySorted l).length = l.length := (pySorted_perm l).length_eq
  have hs : pySorted l ≠ [] := by
    intro hc
    rw [hc] at hlen
    have hz : l.length = 0 := by simpa using hlen.symm
    omega
  have hidx0 : clampedIdx 0 l.length = 0 := by
    have h0 : qIdx 0 l.length = 0 := by
      unfold qIdx
      norm_num
    unfold clampedIdx
    rw [h0]
    show (if l.length ≤ 0 then l.length - 1 else 0) = 0
    rw [if_neg (by omega)]
  have hidx100 : clampedIdx 100 l.length = l.length - 1 := by
    have h100 : qIdx 100 l.length = l.length := by
      unfold qIdx
      norm_num
    unfold clampedIdx
    rw [h100]
    show (if l.length ≤ l.length then l.length - 1 else l.length) = l.length - 1
    rw [if_pos (le_refl _)]
  refine ⟨?_, ?_, fun p hp0 hp1 => clampedIdx_lt p l.length hn⟩
  · show (pySorted l).getD (clampedIdx 0 l.length) 0 = pyMin l
    rw [hidx0]
    cases hsl : pySorted l with
    | nil => exact absurd hsl hs
    | cons a t =>
      show a = pyMin l
      have hsort := pySorted_sorted l
      have hperm := pySorted_perm l
      rw [hsl] at hsort hperm
      apply le_antisymm
      · exact sorted_head_le hsort (pyMin l) (hperm.symm.subset (pyMin_mem l h))
      · exact pyMin_le l a (hperm.subset (List.mem_cons_self a t))
  · show (pySorted l).getD (clampedIdx 100 l.length) 0 = pyMax l
    rw [hidx100, ← hlen, getD_last (pySorted l) hs]
    apply le_antisymm
    · exact le_pyMax l _ ((pySorted_perm l).subset (List.getLast_mem hs))
    · exact sorted_le_getLast (pySorted l) (pySorted_sorted l) hs (pyMax l)
        ((pySorted_perm l).symm.subset (pyMax_mem l h))

/-- Witness for `percentile_endpoints` on the sequence `[3, 1, 2]`. -/
theorem percentile_endpoints_witness :
    ([3, 1, 2] : List Int) ≠ [] ∧ pyPercentile [3, 1, 2] 0 = pyMin [3, 1, 2] ∧
    pyPercentile [3, 1, 2] 100 = pyMax [3, 1, 2] ∧
    clampedIdx 50 ([3, 1, 2] : List Int).length < ([3, 1, 2] : List Int).length :=
  ⟨by decide, (percentile_endpoints [3, 1, 2] (by decide)).1,
    (percentile_endpoints [3, 1, 2] (by decide)).2.1,
    (percentile_endpoints [3, 1, 2] (by decide)).2.2 50 (by norm_num) (by norm_num)⟩

end Klvr
